import Mathlib

/-!
Verification of the DG645 delay-generator socket driver
(`src/id12_common/devices/dg645_delay_gen.py`).

The driver is shallowly embedded: each Python function or property becomes a
Lean definition over an explicit driver state.  The state records the ordered
trace of commands written to the socket (and the sleeps between them) and the
cached last error code.  Python floats are modelled as rationals; Python
exceptions become an explicit error type returned through `Except`.
-/

deriving instance DecidableEq for Except

/-! ## A small fragment of Python values

The driver's numeric parameters may arrive as Python `bool`, `int` or `float`
(for example `burst_T0_config.put(True)`).  `PyVal` models exactly that
fragment: numeric comparison (`==`, the semantics of `in (0, 1)`) goes through
the common numeric value `toQ`, while string interpolation (`pyStr`) keeps the
type-specific rendering, so `True` prints as `"True"` and not `"1"`.
-/

inductive PyVal
  | pyBool (b : Bool)
  | pyInt (n : ℤ)
  | pyFloat (q : ℚ)
deriving DecidableEq

namespace PyVal

/-- Numeric value of a Python scalar (`bool` is an `int` subclass in Python,
so `True == 1` and `False == 0`). -/
def toQ : PyVal → ℚ
  | .pyBool b => if b then 1 else 0
  | .pyInt n => (n : ℚ)
  | .pyFloat q => q

/-- Python truthiness of a scalar, as used by `vv = 1 if value else 0`. -/
def pyTruthy : PyVal → Bool
  | .pyBool b => b
  | .pyInt n => n ≠ 0
  | .pyFloat q => q ≠ 0

/-- Python float `repr`, modelled for the integral values that can reach the
wire formatters of this driver (the `0`/`1`-checked parameters); a
non-integral rational renders through its rational form. -/
def pyStrFloat (q : ℚ) : String :=
  if q.den = 1 then toString q.num ++ ".0" else toString q

/-- Python `str()` of a scalar, the semantics of interpolating the value into
an f-string such as `f"BURT {value}"`. -/
def pyStr : PyVal → String
  | .pyBool b => if b then "True" else "False"
  | .pyInt n => toString n
  | .pyFloat q => pyStrFloat q

end PyVal

/-- Whitespace stripped by Python `int(text)`. -/
def isPySpace (c : Char) : Bool :=
  c = ' ' ∨ c = '\t' ∨ c = '\n' ∨ c = '\r' ∨ c = '\x0b' ∨ c = '\x0c'

/-- Value of a decimal digit character. -/
def digitVal (c : Char) : Option ℕ :=
  if '0' ≤ c ∧ c ≤ '9' then some (c.toNat - 48) else none

/-- Accumulate decimal digits left to right; any non-digit fails. -/
def digitsValAux : List Char → ℕ → Option ℕ
  | [], acc => some acc
  | c :: cs, acc =>
    match digitVal c with
    | some v => digitsValAux cs (acc * 10 + v)
    | none => none

/-- Python `int(text)` on a response line: strip surrounding whitespace,
parse an optionally signed run of decimal digits, `ValueError` (here:
`none`) otherwise. -/
def pyInt (s : String) : Option ℤ :=
  let cs := ((s.data.dropWhile isPySpace).reverse.dropWhile isPySpace).reverse
  match cs with
  | [] => none
  | '-' :: rest =>
    match rest with
    | [] => none
    | _ => (digitsValAux rest 0).map (fun n => -(n : ℤ))
  | '+' :: rest =>
    match rest with
    | [] => none
    | _ => (digitsValAux rest 0).map (fun n => (n : ℤ))
  | _ => (digitsValAux cs 0).map (fun n => (n : ℤ))

/-- A channel or output identifier as passed by callers: a symbolic name or a
numeric index (the `value: str | int` parameter of `_validate_enum`). -/
inductive PyId
  | name (s : String)
  | idx (n : ℤ)
deriving DecidableEq

/-! ## Decimal formatting

Models of the Python format specifiers used on the wire: `{value:0.2f}`
(two fixed decimals) and `{value:e}` (scientific notation with a
six-digit mantissa and a sign-and-two-digit exponent).
-/

/-- Number of decimal digits of `n` minus one (so `0` for `n ≤ 9`); the first
argument is fuel, always called with `fuel = n`. -/
def numDigitsAux : ℕ → ℕ → ℕ
  | 0, _ => 0
  | fuel + 1, n => if n < 10 then 0 else numDigitsAux fuel (n / 10) + 1

/-- For `n ≥ 1`, the exponent of the leading decimal digit of `n`
(`digits10 25 = 1`, `digits10 9 = 0`). -/
def digits10 (n : ℕ) : ℕ :=
  numDigitsAux n n

/-- Round the fraction `n / d` to the nearest natural number, ties to even
(the rounding of Python float formatting). -/
def divRoundHalfEven (n d : ℕ) : ℕ :=
  let q := n / d
  let r := n % d
  if d < 2 * r then q + 1
  else if 2 * r < d then q
  else if q % 2 = 0 then q else q + 1

/-- Render a natural number padded on the left with `0` to two digits. -/
def pad2 (n : ℕ) : String :=
  if n < 10 then "0" ++ toString n else toString n

/-- Python `f"{value:0.2f}"`: fixed-point with exactly two decimals.  The
arithmetic runs on the numerator and denominator of the rational value. -/
def format2f (q : ℚ) : String :=
  let sign := if q < 0 then "-" else ""
  let r := divRoundHalfEven (q.num.natAbs * 100) q.den
  sign ++ toString (r / 100) ++ "." ++ pad2 (r % 100)

/-- Smallest `k` with `d ≤ p * 10 ^ k`; the first argument is fuel. -/
def expSearchAux : ℕ → ℕ → ℕ → ℕ
  | 0, _, _ => 0
  | fuel + 1, p, d => if d ≤ p then 0 else expSearchAux fuel (p * 10) d + 1

/-- Decimal exponent of the positive fraction `p / d`: the `e` with
`10 ^ e ≤ p / d < 10 ^ (e + 1)`. -/
def decExp (p d : ℕ) : ℤ :=
  if d ≤ p then (digits10 (p / d) : ℤ)
  else -(expSearchAux (digits10 d + 2) p d : ℤ)

/-- Render an integer exponent with explicit sign and at least two digits
(`"+01"`, `"-07"`). -/
def expString (e : ℤ) : String :=
  (if e < 0 then "-" else "+") ++ pad2 e.natAbs

/-- Python `f"{value:e}"`: scientific notation, one leading digit, six
mantissa decimals, signed two-digit exponent (`0` renders as
`"0.000000e+00"`).  The mantissa digits are the value scaled by
`10 ^ (6 - e)`, rounded half-to-even, computed on the numerator and
denominator. -/
def formatE (q : ℚ) : String :=
  if q = 0 then "0.000000e+00"
  else
    let sign := if q < 0 then "-" else ""
    let p := q.num.natAbs
    let den := q.den
    let e := decExp p den
    let scaledNum := p * 10 ^ ((6 - e).toNat)
    let scaledDen := den * 10 ^ ((e - 6).toNat)
    let d := divRoundHalfEven scaledNum scaledDen
    let d' := if 10 ^ 7 ≤ d then 10 ^ 6 else d
    let e' := if 10 ^ 7 ≤ d then e + 1 else e
    let ds := toString d'
    sign ++ ds.take 1 ++ "." ++ ds.drop 1 ++ "e" ++ expString e'

/-! ## The wire model

Commands written to the socket.  Set-commands carry their parameters in the
structured form of the f-string that builds them; the parts of a payload whose
exact text the driver controls through a formatter (`LAMP`, `LPOL`, `BURT`,
`BURD`, `BURP`) are carried as the formatted string.  Query commands are
carried as their literal text.
-/

inductive Cmd
  /-- Models the write `f"DLAY {ch},{basis},{delay}"`. -/
  | DLAY (ch basis : ℤ) (delay : ℚ)
  /-- Models the write `f"LAMP {ch},{amplitude:0.2f}"`; `value` is the
  formatted amplitude. -/
  | LAMP (ch : ℤ) (value : String)
  /-- Models the write `f"LPOL {ch},{polarity}"`; `value` is `str(polarity)`. -/
  | LPOL (ch : ℤ) (value : String)
  /-- Models the write `f"BURM {vv}"` with `vv` either `0` or `1`. -/
  | BURM (vv : ℤ)
  /-- Models the write `f"BURT {value}"`; `value` is `str(value)`. -/
  | BURT (value : String)
  /-- Models the write `f"BURD {value:e}"`; `value` is the formatted delay. -/
  | BURD (value : String)
  /-- Models the write `f"BURP {value:e}"`; `value` is the formatted period. -/
  | BURP (value : String)
  /-- Models the write `f"TSRC {value}"`. -/
  | TSRC (v : ℤ)
  /-- A query command, carried as its literal text (`"LERR?"`, `"TSRC?"`,
  `"LPOL? 3"`, ...). -/
  | query (text : String)
deriving DecidableEq

/-- One observable event on the calling path: a socket write or a settle
sleep (`time.sleep`). -/
inductive Event
  | cmd (c : Cmd)
  | sleep (seconds : ℚ)
deriving DecidableEq

/-- The driver state: the ordered trace of events and the cached
`_last_error_code` (initialised to `-1` in the constructor). -/
structure DG645State where
  sent : List Event
  lastErrorCode : ℤ
deriving DecidableEq

/-- The state right after construction: nothing sent, error cache `-1`. -/
def dgInit : DG645State :=
  { sent := [], lastErrorCode := -1 }

/-- Models `Socket.send`: the stripped command (the output terminator is
appended on the wire and not part of the payload) is appended to the trace. -/
def sendCmd (st : DG645State) (c : Cmd) : DG645State :=
  { st with sent := st.sent ++ [Event.cmd c] }

/-- Models `time.sleep(seconds)` on the calling path. -/
def pySleep (st : DG645State) (seconds : ℚ) : DG645State :=
  { st with sent := st.sent ++ [Event.sleep seconds] }

/-- Python exceptions raised by the driver, by kind; the tag names the
parameter the source message talks about. -/
inductive DGErr
  | keyError (label : String)
  | valueError (what : String)
  | typeError (what : String)
  | attributeError (name : String)
  | indexError
deriving DecidableEq

/-! ## Static instrument tables (module-level constants of the source) -/

/-- Models `DG645_OUTPUT_MAP`: front-panel BNC outputs in insertion order, each
key mapped to its instrument name and default amplitude.  Note the first key
is spelled `"TO"` (letter O) in the source, not `"T0"`. -/
def DG645_OUTPUT_MAP : List (String × String × ℚ) :=
  [("TO", "Base", mkRat 5 2),
   ("AB", "Shutter", 4),
   ("CD", "Detector", 3),
   ("EF", "Struck_ADV", mkRat 5 2),
   ("GH", "Struck_INH", mkRat 9 2)]

/-- Models `list(DG645_OUTPUT_MAP)`: the keys, in insertion order. -/
def DG645_OUTPUT_KEYS : List String :=
  DG645_OUTPUT_MAP.map Prod.fst

/-- Models `DG645_CH = "T0 T1 A B C D E F G H".split()`. -/
def DG645_CH : List String :=
  ["T0", "T1", "A", "B", "C", "D", "E", "F", "G", "H"]

/-- Models `DG645_AMPLITUDE_ABS_MAX = 5.0`. -/
def DG645_AMPLITUDE_ABS_MAX : ℚ := 5

/-- Models `DG645_AMPLITUDE_ABS_MIN = 0.5`. -/
def DG645_AMPLITUDE_ABS_MIN : ℚ := mkRat 1 2

/-- Models `DG645_BURST_MAX = 25.0`. -/
def DG645_BURST_MAX : ℚ := 25

/-- Models `DG645_BURST_MIN = 100.0e-9`. -/
def DG645_BURST_MIN : ℚ := mkRat 1 10000000

/-- Models `DG645_TSRC`, the seven trigger-source display strings; the wire
value is the position in this list. -/
def DG645_TSRC : List String :=
  ["Internal",
   "External rising edges",
   "External falling edges",
   "Single shot external rising edges",
   "Single shot external falling edges",
   "Single shot",
   "Line"]

/-- Models `DG645_AMP = [v["amplitude"] for v in DG645_OUTPUT_MAP.values()]`. -/
def DG645_AMP : List ℚ :=
  DG645_OUTPUT_MAP.map (fun e => e.2.2)

/-- Models `DG645_ERROR_CODES`: the static code to (brief, full) table,
entries in source order; each value is the two-element list of the source
(implicitly concatenated string literals are joined). -/
def DG645_ERROR_CODES : List (ℤ × List String) :=
  [(-1, ["Unknown",
     "DG645 last error code has not yet been requested by ophyd Device support."]),
   (0, ["No Error", "No more errors left in the queue."]),
   (10, ["Illegal Value", "A parameter was out of range."]),
   (11, ["Illegal Mode",
     "The action is illegal in the current mode. This might happen, for instance, if a single shot is requested when the trigger source is not single shot."]),
   (12, ["Illegal Delay", "The requested delay is out of range."]),
   (13, ["Illegal Link", "The requested delay linkage is illegal."]),
   (14, ["Recall Failed",
     "The recall of instrument settings from nonvolatile storage failed. The instrument settings were invalid."]),
   (15, ["Not Allowed",
     "The requested action is not allowed because the instrument is locked by another interface."]),
   (16, ["Failed Self Test", "The DG645 self test failed."]),
   (17, ["Failed Auto Calibration", "The DG645 auto calibration failed."]),
   (30, ["Lost Data",
     "Data in the output buffer was lost. This occurs if the output buffer overflows, or if a communications error occurs and data in output buffer is discarded."]),
   (32, ["No Listener",
     "This is a communications error that occurs if the DG645 is addressed to talk on the GPIB bus, but there are no listeners. The DG645 discards any pending output."]),
   (40, ["Failed ROM Check",
     "The ROM checksum failed. The firmware code is likely corrupted."]),
   (41, ["Failed Offset T0 Test",
     "Self test of offset functionality for output T0 failed."]),
   (42, ["Failed Offset AB Test",
     "Self test of offset functionality for output AB failed."]),
   (43, ["Failed Offset CD Test",
     "Self test of offset functionality for output CD failed."]),
   (44, ["Failed Offset EF Test",
     "Self test of offset functionality for output EF failed."]),
   (45, ["Failed Offset GH Test",
     "Self test of offset functionality for output GH failed."]),
   (46, ["Failed Amplitude T0 Test",
     "Self test of amplitude functionality for output T0 failed."]),
   (47, ["Failed Amplitude AB Test",
     "Self test of amplitude functionality for output AB failed."]),
   (48, ["Failed Amplitude CD Test",
     "Self test of amplitude functionality for output CD failed."]),
   (49, ["Failed Amplitude EF Test",
     "Self test of amplitude functionality for output EF failed."]),
   (50, ["Failed Amplitude GH Test",
     "Self test of amplitude functionality for output GH failed."]),
   (51, ["Failed FPGA Communications Test",
     "Self test of FPGA communications failed."]),
   (52, ["Failed GPIB Communications Test",
     "Self test of GPIB communications failed."]),
   (53, ["Failed DDS Communications Test",
     "Self test of DDS communications failed."]),
   (54, ["Failed Serial EEPROM Communications Test",
     "Self test of serial EEPROM communications failed."]),
   (55, ["Failed Temperature Sensor Communications Test",
     "Self test of the temperature sensor communications failed."]),
   (56, ["Failed PLL Communications Test",
     "Self test of PLL communications failed."]),
   (57, ["Failed DAC 0 Communications Test",
     "Self test of DAC 0 communications failed."]),
   (58, ["Failed DAC 1 Communications Test",
     "Self test of DAC 1 communications failed."]),
   (59, ["Failed DAC 2 Communications Test",
     "Self test of DAC 2 communications failed."]),
   (60, ["Failed Sample and Hold Operations Test",
     "Self test of sample and hold operations failed."]),
   (61, ["Failed Vjitter Operations Test",
     "Self test of Vjitter operation failed."]),
   (62, ["Failed Channel T0 Analog Delay Test",
     "Self test of channel T0 analog delay failed."]),
   (63, ["Failed Channel T1 Analog Delay Test",
     "Self test of channel T1 analog delay failed."]),
   (64, ["Failed Channel A Analog Delay Test",
     "Self test of channel A analog delay failed."]),
   (65, ["Failed Channel B Analog Delay Test",
     "Self test of channel B analog delay failed."]),
   (66, ["Failed Channel C Analog Delay Test",
     "Self test of channel C analog delay failed."]),
   (67, ["Failed Channel D Analog Delay Test",
     "Self test of channel D analog delay failed."]),
   (68, ["Failed Channel E Analog Delay Test",
     "Self test of channel E analog delay failed."]),
   (69, ["Failed Channel F Analog Delay Test",
     "Self test of channel F analog delay failed."]),
   (70, ["Failed Channel G Analog Delay Test",
     "Self test of channel G analog delay failed."]),
   (71, ["Failed Channel H Analog Delay Test",
     "Self test of channel H analog delay failed."]),
   (80, ["Failed Sample and Hold Calibration",
     "Auto calibration of sample and hold DAC failed."]),
   (81, ["Failed T0 Calibration", "Auto calibration of channel T0 failed."]),
   (82, ["Failed T1 Calibration", "Auto calibration of channel T1 failed."]),
   (83, ["Failed A Calibration", "Auto calibration of channel A failed."]),
   (84, ["Failed B Calibration", "Auto calibration of channel B failed."]),
   (85, ["Failed C Calibration", "Auto calibration of channel C failed."]),
   (86, ["Failed D Calibration", "Auto calibration of channel D failed."]),
   (87, ["Failed E Calibration", "Auto calibration of channel E failed."]),
   (88, ["Failed F Calibration", "Auto calibration of channel F failed."]),
   (89, ["Failed G Calibration", "Auto calibration of channel G failed."]),
   (90, ["Failed H Calibration", "Auto calibration of channel H failed."]),
   (91, ["Failed Vjitter Calibration", "Auto calibration of Vjitter failed."]),
   (110, ["Illegal Command",
     "The command syntax used was illegal. A command is normally a sequence of four letters, or a '*' followed by three letters."]),
   (111, ["Undefined Command", "The specified command does not exist."]),
   (112, ["Illegal Query", "The specified command does not permit queries"]),
   (113, ["Illegal Set", "The specified command can only be queried."]),
   (114, ["Null Parameter", "The parser detected an empty parameter."]),
   (115, ["Extra Parameters",
     "The parser detected more parameters than allowed by the command."]),
   (116, ["Missing Parameters",
     "The parser detected missing parameters required by the command."]),
   (117, ["Parameter Overflow",
     "The buffer for storing parameter values overflowed. This probably indicates a syntax error."]),
   (118, ["Invalid Floating Point Number",
     "The parser expected a floating point number, but was unable to parse it."]),
   (120, ["Invalid Integer",
     "The parser expected an integer, but was unable to parse it."]),
   (121, ["Integer Overflow",
     "A parsed integer was too large to store correctly."]),
   (122, ["Invalid Hexadecimal",
     "The parser expected hexadecimal characters but was unable to parse them."]),
   (126, ["Syntax Error",
     "The parser detected a syntax error in the command."]),
   (170, ["Communication Error",
     "A communication error was detected. This is reported if the hardware detects a framing, or parity error in the data stream."]),
   (171, ["Over run",
     "The input buffer of the remote interface overflowed. All data in both the input and output buffers will be flushed."]),
   (254, ["Too Many Errors",
     "The error buffer is full. Subsequent errors have been dropped."])]

/-! ## Parameter validation and the internal support methods -/

/-- Models `_validate_enum(value, label, choices)` in the `only_str = False`
form used by every call site of this module: a string value not in `choices`
raises `KeyError`; a string value is then replaced by its index in `choices`;
finally the index must lie in `0 .. len(choices) - 1`, else `KeyError`.  The
error carries the `label` of the source message. -/
def validate_enum (value : PyId) (label : String) (choices : List String) :
    Except DGErr ℤ :=
  match value with
  | .name s =>
    if s ∈ choices then
      let vv : ℤ := (choices.indexOf s : ℕ)
      if 0 ≤ vv ∧ vv ≤ (choices.length : ℤ) - 1 then .ok vv
      else .error (.keyError label)
    else .error (.keyError label)
  | .idx n =>
    if 0 ≤ n ∧ n ≤ (choices.length : ℤ) - 1 then .ok n
    else .error (.keyError label)

/-- Models `_set_channel_delay(channel, basis, delay)`: validate the channel
against `DG645_CH`, then write `DLAY ch,basis,delay`. -/
def set_channel_delay (st : DG645State) (channel : PyId) (basis : ℤ)
    (delay : ℚ) : Except DGErr DG645State := do
  let ch ← validate_enum channel "channel" DG645_CH
  .ok (sendCmd st (.DLAY ch basis delay))

/-- Models `set_delay_T0(delay)`: a single channel-delay write on channel 1
with basis 0. -/
def set_delay_T0 (st : DG645State) (delay : ℚ) : Except DGErr DG645State :=
  set_channel_delay st (.idx 1) 0 delay

/-- Models `set_delay_AB(delay, duration)`: leading edge on channel 2 from
basis 0, trailing edge on channel 3 from basis 2. -/
def set_delay_AB (st : DG645State) (delay duration : ℚ) :
    Except DGErr DG645State := do
  let ch : ℤ := 2
  let st ← set_channel_delay st (.idx ch) 0 delay
  set_channel_delay st (.idx (ch + 1)) ch duration

/-- Models `set_delay_CD(delay, duration)` with `ch = 4`. -/
def set_delay_CD (st : DG645State) (delay duration : ℚ) :
    Except DGErr DG645State := do
  let ch : ℤ := 4
  let st ← set_channel_delay st (.idx ch) 0 delay
  set_channel_delay st (.idx (ch + 1)) ch duration

/-- Models `set_delay_EF(delay, duration)` with `ch = 6`. -/
def set_delay_EF (st : DG645State) (delay duration : ℚ) :
    Except DGErr DG645State := do
  let ch : ℤ := 6
  let st ← set_channel_delay st (.idx ch) 0 delay
  set_channel_delay st (.idx (ch + 1)) ch duration

/-- Models `set_delay_GH(delay, duration)` with `ch = 8`. -/
def set_delay_GH (st : DG645State) (delay duration : ℚ) :
    Except DGErr DG645State := do
  let ch : ℤ := 8
  let st ← set_channel_delay st (.idx ch) 0 delay
  set_channel_delay st (.idx (ch + 1)) ch duration

/-- Models `_set_level_amplitude(channel, amplitude)`: validate the output
channel against `list(DG645_OUTPUT_MAP)`, check
`DG645_AMPLITUDE_ABS_MIN <= abs(amplitude) <= DG645_AMPLITUDE_ABS_MAX`
(raising `ValueError` otherwise, before any write; the source's message
f-string is itself ill-formed, but a `ValueError` is raised either way), then
write `LAMP ch,amplitude` with the amplitude formatted to two decimals. -/
def set_level_amplitude (st : DG645State) (channel : PyId) (amplitude : ℚ) :
    Except DGErr DG645State := do
  let ch ← validate_enum channel "output channel" DG645_OUTPUT_KEYS
  if ¬(DG645_AMPLITUDE_ABS_MIN ≤ |amplitude| ∧
      |amplitude| ≤ DG645_AMPLITUDE_ABS_MAX) then
    .error (.valueError "amplitude")
  else
    .ok (sendCmd st (.LAMP ch (format2f amplitude)))

/-- Models `_set_level_polarity(channel, polarity)`: validate the output
channel, check `polarity in (0, 1)` (Python numeric equality, so `True` and
`1.0` pass), raising `ValueError` otherwise before any write, then write
`LPOL ch,polarity` with the polarity interpolated by `str()`. -/
def set_level_polarity (st : DG645State) (channel : PyId) (polarity : PyVal) :
    Except DGErr DG645State := do
  let ch ← validate_enum channel "output channel" DG645_OUTPUT_KEYS
  if ¬(polarity.toQ = 0 ∨ polarity.toQ = 1) then
    .error (.valueError "polarity")
  else
    .ok (sendCmd st (.LPOL ch polarity.pyStr))

/-- Models `_get_level_polarity(channel)`: validate the output channel, query
`LPOL? ch`, decode the response with `int()`.  The instrument's response line
is passed in as `resp`. -/
def get_level_polarity (st : DG645State) (channel : PyId) (resp : String) :
    Except DGErr (ℤ × DG645State) := do
  let ch ← validate_enum channel "output channel" DG645_OUTPUT_KEYS
  let st := sendCmd st (.query ("LPOL? " ++ toString ch))
  match pyInt resp with
  | some v => .ok (v, st)
  | none => .error (.valueError "int()")

/-! ## Burst configuration setters (the `AttributeSignal` property setters) -/

/-- Models the `_burst_mode` setter: `vv = 1 if value else 0`, then write
`BURM vv`. -/
def burst_mode_set (st : DG645State) (value : PyVal) : DG645State :=
  sendCmd st (.BURM (if value.pyTruthy then 1 else 0))

/-- Models the `_burst_T0_config` setter: `value in (0, 1)` by numeric
equality, else `ValueError`; the accepted value is interpolated by `str()`
into `BURT value`. -/
def burst_T0_config_set (st : DG645State) (value : PyVal) :
    Except DGErr DG645State :=
  if ¬(value.toQ = 0 ∨ value.toQ = 1) then
    .error (.valueError "Burst T0 configuration")
  else
    .ok (sendCmd st (.BURT value.pyStr))

/-- Models the `_burst_delay` setter: write `BURD value` in scientific
notation (no validation). -/
def burst_delay_set (st : DG645State) (value : PyVal) : DG645State :=
  sendCmd st (.BURD (formatE value.toQ))

/-- Models the `_burst_period` setter: require
`DG645_BURST_MIN <= value <= DG645_BURST_MAX`, else `ValueError` before any
write; then write `BURP value` in scientific notation. -/
def burst_period_set (st : DG645State) (value : ℚ) :
    Except DGErr DG645State :=
  if ¬(DG645_BURST_MIN ≤ value ∧ value ≤ DG645_BURST_MAX) then
    .error (.valueError "Burst period")
  else
    .ok (sendCmd st (.BURP (formatE value)))

/-- Models `burst_init()`: `burst_mode_enable.put(True)`,
`burst_T0_config.put(True)`, `burst_delay.put(0)`, each followed by
`time.sleep(0.01)`. -/
def burst_init (st : DG645State) : Except DGErr DG645State := do
  let st := burst_mode_set st (.pyBool true)
  let st := pySleep st (mkRat 1 100)
  let st ← burst_T0_config_set st (.pyBool true)
  let st := pySleep st (mkRat 1 100)
  let st := burst_delay_set st (.pyInt 0)
  let st := pySleep st (mkRat 1 100)
  .ok st

/-! ## Error table and diagnostics -/

/-- Models `DG645_ERROR_CODES.get(code, ["unknown"])`. -/
def errorCodesGet (code : ℤ) : List String :=
  match DG645_ERROR_CODES.lookup code with
  | some v => v
  | none => ["unknown"]

/-- Models `last_error_brief(code)`: element `[0]` of the table entry (the
entry is never empty, so the default for `headD` is unreachable). -/
def last_error_brief (code : ℤ) : String :=
  (errorCodesGet code).headD ""

/-- Models `last_error_full(code)`: element `[-1]` of the table entry. -/
def last_error_full (code : ℤ) : String :=
  (errorCodesGet code).getLastD ""

/-- Models `_request_last_error_code()`: `send_receive("LERR?")`, decode with
`int()`, cache the code in `_last_error_code` and return it.  The instrument
response line is passed in as `resp`. -/
def request_last_error_code (st : DG645State) (resp : String) :
    Except DGErr (ℤ × DG645State) :=
  match pyInt resp with
  | some code => .ok (code, { sendCmd st (.query "LERR?") with lastErrorCode := code })
  | none => .error (.valueError "int()")

/-- The structured warning record logged by `check_error`: the call arguments
of `logger.warning` (step label, numeric code, brief and full descriptions). -/
structure LogWarning where
  step : String
  code : ℤ
  brief : String
  full : String
deriving DecidableEq

/-- Models `check_error(step)`: request and cache the last error code; if
non-zero, emit the structured warning. -/
def check_error (st : DG645State) (resp : String) (step : String) :
    Except DGErr (DG645State × Option LogWarning) := do
  let (code, st) ← request_last_error_code st resp
  if code ≠ 0 then
    .ok (st, some ⟨step, code, last_error_brief code, last_error_full code⟩)
  else
    .ok (st, none)

/-! ## Trigger source -/

/-- Python list indexing `l[i]` on a list of strings: negative indices count
from the end; out of range raises `IndexError`. -/
def pyListGet (l : List String) (i : ℤ) : Except DGErr String :=
  let j := if i < 0 then (l.length : ℤ) + i else i
  if 0 ≤ j then
    match l.get? j.toNat with
    | some v => .ok v
    | none => .error .indexError
  else .error .indexError

/-- Models the `_trigger_source` getter: query `TSRC?`, decode the integer
index, return `enum_strs[idx]` (the `enum_strs` metadata is `DG645_TSRC`). -/
def trigger_source_get (st : DG645State) (resp : String) :
    Except DGErr (String × DG645State) := do
  let st := sendCmd st (.query "TSRC?")
  match pyInt resp with
  | some idx => do
    let label ← pyListGet DG645_TSRC idx
    .ok (label, st)
  | none => .error (.valueError "int()")

/-- Models the `_trigger_source` setter: a string must be one of the seven
labels (else `ValueError`) and is replaced by its index; an integer must lie
in `0 ..< 7` (else `ValueError`); a value of any other type raises
`TypeError`, which the `String ⊕ ℤ` argument type rules out here.  Finally,
`if value >= 0`, write `TSRC value`. -/
def trigger_source_set (st : DG645State) (value : String ⊕ ℤ) :
    Except DGErr DG645State :=
  match value with
  | .inl s =>
    if s ∈ DG645_TSRC then
      let v : ℤ := (DG645_TSRC.indexOf s : ℕ)
      .ok (if 0 ≤ v then sendCmd st (.TSRC v) else st)
    else .error (.valueError "trigger source")
  | .inr n =>
    if n < 0 ∨ (DG645_TSRC.length : ℤ) ≤ n then
      .error (.valueError "trigger source")
    else
      .ok (if 0 ≤ n then sendCmd st (.TSRC n) else st)

/-! ## The polarity properties, as bound by the class body

The polarity getters and setters are Python `property` objects built by
decorators.  The class body is executed top to bottom, and two of the
decorator lines name the wrong attribute, so the final binding differs from
the documented intent.  `PropStep` records the decorator lines exactly as
written; `applyStep` is the Python semantics: `@property def name` binds a
fresh getter-only property to `name`, and `@fromName.setter def name` binds
to `name` a copy of the property currently bound to `fromName` with the new
setter added.  A property's getter and setter are identified by the output
index they dispatch to (`_get_level_polarity(k)` / `_set_level_polarity(k)`).
-/

structure PyProperty where
  fget : Option ℕ
  fset : Option ℕ
deriving DecidableEq

inductive PropStep
  | defGetter (name : String) (fget : ℕ)
  | defSetter (name fromName : String) (fset : ℕ)
deriving DecidableEq

/-- Bind `name` in a class namespace (newest binding shadows older ones). -/
def dictSet (d : List (String × PyProperty)) (name : String)
    (v : PyProperty) : List (String × PyProperty) :=
  (name, v) :: d

/-- Execute one decorator line of the class body. -/
def applyStep (d : List (String × PyProperty)) : PropStep →
    List (String × PyProperty)
  | .defGetter name g => dictSet d name ⟨some g, none⟩
  | .defSetter name fromName s =>
    match d.lookup fromName with
    | some p => dictSet d name { p with fset := some s }
    | none => d

/-- The polarity decorator lines of the class body, in source order.  Note
line 941 defines the setter under the name `_polarity` (decorating
`_polarity3`), and line 950 decorates `_polarity.setter` to define
`_polarity4`. -/
def polaritySteps : List PropStep :=
  [.defGetter "_polarity0" 0, .defSetter "_polarity0" "_polarity0" 0,
   .defGetter "_polarity1" 1, .defSetter "_polarity1" "_polarity1" 1,
   .defGetter "_polarity2" 2, .defSetter "_polarity2" "_polarity2" 2,
   .defGetter "_polarity3" 3, .defSetter "_polarity" "_polarity3" 3,
   .defGetter "_polarity4" 4, .defSetter "_polarity4" "_polarity" 4]

/-- The class namespace after executing all polarity decorator lines. -/
def polarityClassDict : List (String × PyProperty) :=
  polaritySteps.foldl applyStep []

/-- The polarity `Component`s of the facade: ophyd signal name to the backing
attribute named by `attr=`. -/
def polarityComponents : List (String × String) :=
  [("polarityT0", "_polarity0"),
   ("polarityAB", "_polarity1"),
   ("polarityCD", "_polarity2"),
   ("polarityEF", "_polarity3"),
   ("polarityGH", "_polarity4")]

/-- Reading a polarity attribute: look the property up in the class
namespace, call its getter (missing attribute or getter raises
`AttributeError`), which issues `LPOL? k` for the getter's output index. -/
def polarity_attr_get (attr : String) (st : DG645State) (resp : String) :
    Except DGErr (ℤ × DG645State) :=
  match polarityClassDict.lookup attr with
  | some p =>
    match p.fget with
    | some k => get_level_polarity st (.idx (k : ℤ)) resp
    | none => .error (.attributeError attr)
  | none => .error (.attributeError attr)

/-- Writing a polarity attribute: look the property up in the class
namespace, call its setter (a property without a setter raises
`AttributeError`), which issues `LPOL k,value` for the setter's output
index. -/
def polarity_attr_put (attr : String) (st : DG645State) (value : PyVal) :
    Except DGErr DG645State :=
  match polarityClassDict.lookup attr with
  | some p =>
    match p.fset with
    | some k => set_level_polarity st (.idx (k : ℤ)) value
    | none => .error (.attributeError attr)
  | none => .error (.attributeError attr)

/-! ## `set_defaults` and the amplitude components -/

/-- The amplitude `Component`s of the facade: ophyd signal name to backing
attribute.  These are the only `amplitude*` attributes the device defines. -/
def amplitudeComponents : List (String × String) :=
  [("amplitudeT0", "_amplitude0"),
   ("amplitudeAB", "_amplitude1"),
   ("amplitudeCD", "_amplitude2"),
   ("amplitudeEF", "_amplitude3"),
   ("amplitudeGH", "_amplitude4")]

/-- The `_amplitude<k>` property setters: each delegates to
`_set_level_amplitude(k, value)`. -/
def amplitudeAttrChannel : List (String × ℕ) :=
  [("_amplitude0", 0), ("_amplitude1", 1), ("_amplitude2", 2),
   ("_amplitude3", 3), ("_amplitude4", 4)]

/-- Models `self.<componentName>.put(value)` for an amplitude signal: an
attribute access on the device (unknown names raise `AttributeError`),
then the backing property setter, then `_set_level_amplitude`. -/
def amplitude_component_put (st : DG645State) (componentName : String)
    (value : ℚ) : Except DGErr DG645State :=
  match amplitudeComponents.lookup componentName with
  | none => .error (.attributeError componentName)
  | some attr =>
    match amplitudeAttrChannel.lookup attr with
    | some k => set_level_amplitude st (.idx (k : ℤ)) value
    | none => .error (.attributeError attr)

/-- Models `set_defaults()` exactly as written: it accesses the attributes
`amplitude1 .. amplitude4` (which the class does not define; its amplitude
components are `amplitudeT0 .. amplitudeGH`) and would put
`DG645_AMP[1] .. DG645_AMP[4]` on them. -/
def set_defaults (st : DG645State) : Except DGErr DG645State := do
  let st ← amplitude_component_put st "amplitude1" (DG645_AMP.getD 1 0)
  let st ← amplitude_component_put st "amplitude2" (DG645_AMP.getD 2 0)
  let st ← amplitude_component_put st "amplitude3" (DG645_AMP.getD 3 0)
  let st ← amplitude_component_put st "amplitude4" (DG645_AMP.getD 4 0)
  .ok st

/-! ## Claim theorems -/

/-- C1 (counterexample): as stated the claim is false for `set_delay_T0`: one
call issues exactly ONE channel-delay write (channel 1, basis 0, value the
delay), not two; the helper does not even take a duration. -/
theorem c1_T0_single_write :
    (set_delay_T0 dgInit 1).map DG645State.sent = .ok [.cmd (.DLAY 1 0 1)] ∧
    [Event.cmd (.DLAY 1 0 1)].length = 1 := by
  decide

/-- C1 (amended): each of `set_delay_AB/CD/EF/GH` performs exactly two
channel-delay writes, first the leading edge (reference channel 0, value the
delay), then the trailing edge (reference the leading channel's index, value
the duration), in that fixed order; `set_delay_T0` takes only a delay and
performs exactly one channel-delay write, on channel 1 with reference 0. -/
theorem c1_pulse_helpers_writes (st : DG645State) (d u : ℚ) :
    set_delay_AB st d u =
      .ok { st with sent := st.sent ++ [.cmd (.DLAY 2 0 d), .cmd (.DLAY 3 2 u)] } ∧
    set_delay_CD st d u =
      .ok { st with sent := st.sent ++ [.cmd (.DLAY 4 0 d), .cmd (.DLAY 5 4 u)] } ∧
    set_delay_EF st d u =
      .ok { st with sent := st.sent ++ [.cmd (.DLAY 6 0 d), .cmd (.DLAY 7 6 u)] } ∧
    set_delay_GH st d u =
      .ok { st with sent := st.sent ++ [.cmd (.DLAY 8 0 d), .cmd (.DLAY 9 8 u)] } ∧
    set_delay_T0 st d =
      .ok { st with sent := st.sent ++ [.cmd (.DLAY 1 0 d)] } := by
  refine ⟨?_, ?_, ?_, ?_, ?_⟩ <;>
    simp [set_delay_AB, set_delay_CD, set_delay_EF, set_delay_GH, set_delay_T0,
      set_channel_delay, validate_enum, DG645_CH, sendCmd, List.append_assoc,
      Bind.bind, Except.bind]

/-- C2 (confirmed): for any valid output channel, an amplitude with
`|a| < 0.5` or `|a| > 5.0` raises the validation error with no write sent,
and an amplitude with `0.5 ≤ |a| ≤ 5.0` sends exactly one `LAMP` write with
the value formatted to two decimal digits. -/
theorem c2_amplitude_validation (st : DG645State) (chId : PyId) (ch : ℤ)
    (a : ℚ)
    (h : validate_enum chId "output channel" DG645_OUTPUT_KEYS = .ok ch) :
    ((|a| < DG645_AMPLITUDE_ABS_MIN ∨ DG645_AMPLITUDE_ABS_MAX < |a|) →
      set_level_amplitude st chId a = .error (.valueError "amplitude")) ∧
    ((DG645_AMPLITUDE_ABS_MIN ≤ |a| ∧ |a| ≤ DG645_AMPLITUDE_ABS_MAX) →
      set_level_amplitude st chId a =
        .ok { st with sent := st.sent ++ [.cmd (.LAMP ch (format2f a))] }) := by
  constructor
  · intro hbad
    have hcond : ¬(DG645_AMPLITUDE_ABS_MIN ≤ |a| ∧
        |a| ≤ DG645_AMPLITUDE_ABS_MAX) := by
      rcases hbad with h1 | h1
      · exact fun hc => absurd hc.1 (not_le.mpr h1)
      · exact fun hc => absurd hc.2 (not_le.mpr h1)
    simp [set_level_amplitude, h, hcond, Bind.bind, Except.bind]
  · intro hgood
    simp [set_level_amplitude, h, hgood, sendCmd, Bind.bind, Except.bind]

/-- C2 (witness): output 1 with amplitude 6 is rejected before any write. -/
theorem c2_amplitude_validation_witness :
    (|(6 : ℚ)| < DG645_AMPLITUDE_ABS_MIN ∨ DG645_AMPLITUDE_ABS_MAX < |(6 : ℚ)|) ∧
    set_level_amplitude dgInit (.idx 1) 6 = .error (.valueError "amplitude") :=
  ⟨Or.inr (by decide),
   (c2_amplitude_validation dgInit (.idx 1) 1 6 (by decide)).1
     (Or.inr (by decide))⟩

/-- C3 (counterexample): the second write of `burst_init` carries the payload
value `"True"` (the boolean interpolated verbatim), not the claimed `"1"`. -/
theorem c3_burst_init_BURT_payload :
    (burst_init dgInit).map DG645State.sent =
      .ok [.cmd (.BURM 1), .sleep (mkRat 1 100), .cmd (.BURT "True"),
        .sleep (mkRat 1 100), .cmd (.BURD "0.000000e+00"),
        .sleep (mkRat 1 100)] ∧
    ("True" : String) ≠ "1" := by
  decide

/-- C3 (amended): `burst_init()` issues exactly 3 writes in the fixed order
(enable burst mode `BURM 1`; set burst T0 config with the boolean `True`
interpolated verbatim, so the payload value is `"True"` rather than `"1"`;
set burst delay to zero, `BURD 0.000000e+00`), each write followed by the
fixed 10 ms settle delay, and no other command is sent. -/
theorem c3_burst_init_trace (st : DG645State) :
    burst_init st = .ok { st with sent := st.sent ++
      [.cmd (.BURM 1), .sleep (mkRat 1 100), .cmd (.BURT "True"),
       .sleep (mkRat 1 100), .cmd (.BURD "0.000000e+00"),
       .sleep (mkRat 1 100)] } := by
  simp [burst_init, burst_mode_set, burst_T0_config_set, burst_delay_set,
    PyVal.pyTruthy, PyVal.toQ, PyVal.pyStr, pySleep, sendCmd,
    List.append_assoc, Bind.bind, Except.bind]
  rfl

/-- C4 (confirmed): for each of the 7 trigger-source labels, setting the
source writes `TSRC i` with `i` the label's index, and getting the source
from an instrument that echoes that stored index returns the same label;
moreover label-to-index and index-to-label are mutually inverse over the 7
labels and indices 0–6. -/
theorem c4_trigger_source_roundtrip (st : DG645State) (L : String)
    (hL : L ∈ DG645_TSRC) :
    trigger_source_set st (.inl L) =
      .ok { st with sent :=
        st.sent ++ [.cmd (.TSRC (DG645_TSRC.indexOf L : ℕ))] } ∧
    trigger_source_get st (toString ((DG645_TSRC.indexOf L : ℕ) : ℤ)) =
      .ok (L, { st with sent := st.sent ++ [.cmd (.query "TSRC?")] }) ∧
    DG645_TSRC.length = 7 ∧
    (∀ i < 7, DG645_TSRC.indexOf (DG645_TSRC.getD i "") = i) ∧
    (∀ M ∈ DG645_TSRC, DG645_TSRC.getD (DG645_TSRC.indexOf M) "" = M) := by
  simp only [DG645_TSRC, List.mem_cons, List.not_mem_nil, or_false] at hL
  rcases hL with rfl | rfl | rfl | rfl | rfl | rfl | rfl <;>
    exact ⟨rfl, rfl, by decide, by decide, by decide⟩

/-- C4 (witness): the round trip at the label `"Line"` (index 6). -/
theorem c4_trigger_source_roundtrip_witness :
    trigger_source_set dgInit (.inl "Line") =
      .ok { dgInit with sent :=
        dgInit.sent ++ [.cmd (.TSRC (DG645_TSRC.indexOf "Line" : ℕ))] } ∧
    trigger_source_get dgInit (toString ((DG645_TSRC.indexOf "Line" : ℕ) : ℤ)) =
      .ok ("Line", { dgInit with sent :=
        dgInit.sent ++ [.cmd (.query "TSRC?")] }) ∧
    DG645_TSRC.length = 7 ∧
    (∀ i < 7, DG645_TSRC.indexOf (DG645_TSRC.getD i "") = i) ∧
    (∀ M ∈ DG645_TSRC, DG645_TSRC.getD (DG645_TSRC.indexOf M) "" = M) :=
  c4_trigger_source_roundtrip dgInit "Line" (by decide)

/-- C5 (confirmed): `check_error(step)` issues exactly one `LERR?` query,
caches the decoded integer as the last error code, and produces the
structured warning (step label, code, brief and full descriptions from the
static table) exactly when the code is non-zero; any code absent from the
table resolves to the placeholder pair `("unknown", "unknown")`. -/
theorem c5_check_error (st : DG645State) (resp step : String) (code : ℤ)
    (h : pyInt resp = some code) :
    check_error st resp step =
      .ok ({ sent := st.sent ++ [.cmd (.query "LERR?")],
             lastErrorCode := code },
        if code = 0 then none
        else some ⟨step, code, last_error_brief code, last_error_full code⟩) ∧
    (∀ c : ℤ, DG645_ERROR_CODES.lookup c = none →
      last_error_brief c = "unknown" ∧ last_error_full c = "unknown") := by
  constructor
  · by_cases hc : code = 0 <;>
      simp [check_error, request_last_error_code, h, hc, sendCmd,
        Bind.bind, Except.bind]
  · intro c hcode
    simp [last_error_brief, last_error_full, errorCodesGet, hcode]

/-- C5 (witness): a response of `170` in step `"load"` warns with the
table's brief text for code 170, and code 9999 is absent from the table. -/
theorem c5_check_error_witness :
    (check_error dgInit "170" "load" =
      .ok ({ sent := dgInit.sent ++ [.cmd (.query "LERR?")],
             lastErrorCode := 170 },
        if (170 : ℤ) = 0 then none
        else some ⟨"load", 170, last_error_brief 170, last_error_full 170⟩)) ∧
    last_error_brief 9999 = "unknown" ∧ last_error_full 9999 = "unknown" :=
  ⟨(c5_check_error dgInit "170" "load" 170 (by decide)).1,
   (c5_check_error dgInit "170" "load" 170 (by decide)).2 9999 (by decide)⟩

/-- C6 (counterexample): the symbolic name `"T0"` (with a digit zero) is
rejected by the amplitude and polarity operations — the output map spells its
first key `"TO"` with the letter O — so the claim's name set
{T0, AB, CD, EF, GH} is not the accepted one. -/
theorem c6_T0_name_rejected :
    set_level_amplitude dgInit (.name "T0") 4 =
      .error (.keyError "output channel") ∧
    set_level_polarity dgInit (.name "T0") (.pyInt 1) =
      .error (.keyError "output channel") ∧
    DG645_OUTPUT_KEYS = ["TO", "AB", "CD", "EF", "GH"] := by
  decide

/-- C6 (amended): the amplitude and polarity operations accept each output
pair either as its symbolic name from {TO, AB, CD, EF, GH} (the map key
`"TO"` is spelled with the letter O, so `"T0"` with a zero is unknown),
mapped to its index 0–4, or as its numeric index 0–4; an unknown symbolic
name or an index outside 0–4 raises the validation error before any write. -/
theorem c6_output_identifier_validation (st : DG645State) (a : ℚ) (p : PyVal)
    (s : String) (i : ℤ) :
    (s ∈ DG645_OUTPUT_KEYS →
      validate_enum (.name s) "output channel" DG645_OUTPUT_KEYS =
        .ok (DG645_OUTPUT_KEYS.indexOf s : ℕ)) ∧
    (s ∉ DG645_OUTPUT_KEYS →
      set_level_amplitude st (.name s) a = .error (.keyError "output channel") ∧
      set_level_polarity st (.name s) p = .error (.keyError "output channel")) ∧
    (0 ≤ i ∧ i ≤ 4 →
      validate_enum (.idx i) "output channel" DG645_OUTPUT_KEYS = .ok i) ∧
    (¬(0 ≤ i ∧ i ≤ 4) →
      set_level_amplitude st (.idx i) a = .error (.keyError "output channel") ∧
      set_level_polarity st (.idx i) p = .error (.keyError "output channel")) := by
  refine ⟨?_, ?_, ?_, ?_⟩
  · intro hs
    simp only [DG645_OUTPUT_KEYS, DG645_OUTPUT_MAP] at hs ⊢
    simp only [List.map_cons, List.map_nil, List.mem_cons,
      List.not_mem_nil, or_false] at hs
    rcases hs with rfl | rfl | rfl | rfl | rfl <;> decide
  · intro hs
    constructor <;>
      simp [set_level_amplitude, set_level_polarity, validate_enum, hs,
        Bind.bind, Except.bind]
  · intro hi
    have h4 : i ≤ (DG645_OUTPUT_KEYS.length : ℤ) - 1 := by
      simpa [DG645_OUTPUT_KEYS, DG645_OUTPUT_MAP] using hi.2
    simp [validate_enum, hi.1, h4]
  · intro hi
    have hcond : ¬(0 ≤ i ∧ i ≤ (DG645_OUTPUT_KEYS.length : ℤ) - 1) := by
      simpa [DG645_OUTPUT_KEYS, DG645_OUTPUT_MAP] using hi
    constructor <;>
      simp [set_level_amplitude, set_level_polarity, validate_enum, hcond,
        Bind.bind, Except.bind]

/-- C6 (witness): the name `"TO"` validates to index 0 and the out-of-range
index 7 is rejected by both operations. -/
theorem c6_output_identifier_validation_witness :
    validate_enum (.name "TO") "output channel" DG645_OUTPUT_KEYS =
      .ok (DG645_OUTPUT_KEYS.indexOf "TO" : ℕ) ∧
    (set_level_amplitude dgInit (.idx 7) 1 =
      .error (.keyError "output channel") ∧
     set_level_polarity dgInit (.idx 7) (.pyInt 0) =
      .error (.keyError "output channel")) :=
  ⟨(c6_output_identifier_validation dgInit 1 (.pyInt 0) "TO" 7).1 (by decide),
   (c6_output_identifier_validation dgInit 1 (.pyInt 0) "TO" 7).2.2.2
     (by decide)⟩

/-- C7 (code-bug evidence): the `polarityGH` component is backed by
`_polarity4`, whose getter — through the misbound property decorators — reads
output 3 (it issues `LPOL? 3`, not `LPOL? 4`), while the property backing
`polarityEF` (`_polarity3`) has no setter at all, so writing it raises
`AttributeError`; the class namespace records both misbindings. -/
theorem c7_polarity_misbinding :
    polarityComponents.lookup "polarityGH" = some "_polarity4" ∧
    polarity_attr_get "_polarity4" dgInit "0" =
      .ok (0, { sent := [.cmd (.query "LPOL? 3")], lastErrorCode := -1 }) ∧
    polarityComponents.lookup "polarityEF" = some "_polarity3" ∧
    polarity_attr_put "_polarity3" dgInit (.pyInt 1) =
      .error (.attributeError "_polarity3") ∧
    polarityClassDict.lookup "_polarity3" = some ⟨some 3, none⟩ ∧
    polarityClassDict.lookup "_polarity4" = some ⟨some 3, some 4⟩ := by
  decide

/-- C8 (confirmed): the burst period accepts exactly the closed interval
from `100e-9` to `25.0` (both endpoints included), sending one `BURP` write
in scientific notation; every value outside raises the validation error with
no write sent. -/
theorem c8_burst_period_range (st : DG645State) (v : ℚ) :
    ((DG645_BURST_MIN ≤ v ∧ v ≤ DG645_BURST_MAX) →
      burst_period_set st v =
        .ok { st with sent := st.sent ++ [.cmd (.BURP (formatE v))] }) ∧
    (¬(DG645_BURST_MIN ≤ v ∧ v ≤ DG645_BURST_MAX) →
      burst_period_set st v = .error (.valueError "Burst period")) := by
  constructor <;> intro h <;> simp [burst_period_set, h, sendCmd]

/-- C8 (witness): both endpoints are accepted and the claim's rejected
examples `99e-9` and `25.1` raise the validation error. -/
theorem c8_burst_period_range_witness :
    burst_period_set dgInit DG645_BURST_MIN =
      .ok { dgInit with sent :=
        dgInit.sent ++ [.cmd (.BURP (formatE DG645_BURST_MIN))] } ∧
    burst_period_set dgInit DG645_BURST_MAX =
      .ok { dgInit with sent :=
        dgInit.sent ++ [.cmd (.BURP (formatE DG645_BURST_MAX))] } ∧
    burst_period_set dgInit (mkRat 99 1000000000) =
      .error (.valueError "Burst period") ∧
    burst_period_set dgInit (mkRat 251 10) =
      .error (.valueError "Burst period") :=
  ⟨(c8_burst_period_range dgInit DG645_BURST_MIN).1 ⟨le_refl _, by decide⟩,
   (c8_burst_period_range dgInit DG645_BURST_MAX).1 ⟨by decide, le_refl _⟩,
   (c8_burst_period_range dgInit (mkRat 99 1000000000)).2 (by decide),
   (c8_burst_period_range dgInit (mkRat 251 10)).2 (by decide)⟩

/-- C9 (code-bug evidence): `set_defaults()` raises `AttributeError` on its
very first line — the class defines no attribute `amplitude1` (its amplitude
components are `amplitudeT0 .. amplitudeGH`) — so no amplitude write is ever
performed. -/
theorem c9_set_defaults_attribute_error :
    set_defaults dgInit = .error (.attributeError "amplitude1") ∧
    amplitudeComponents.lookup "amplitude1" = none ∧
    amplitudeComponents.map Prod.fst =
      ["amplitudeT0", "amplitudeAB", "amplitudeCD", "amplitudeEF",
       "amplitudeGH"] := by
  decide

/-- C10 (confirmed): the "must be exactly 0 or 1" checks of output polarity
and burst T0 config accept any value numerically equal to 0 or 1 (so the
booleans and the floats 0.0/1.0 pass), and the accepted value is
interpolated verbatim by `str()` into the wire command — in particular the
boolean `True` transmits the payload text `"True"`, not `"1"`. -/
theorem c10_verbatim_zero_one_checks (st : DG645State) (v : PyVal)
    (h : v.toQ = 0 ∨ v.toQ = 1) :
    burst_T0_config_set st v =
      .ok { st with sent := st.sent ++ [.cmd (.BURT v.pyStr)] } ∧
    set_level_polarity st (.idx 0) v =
      .ok { st with sent := st.sent ++ [.cmd (.LPOL 0 v.pyStr)] } ∧
    PyVal.pyStr (.pyBool true) = "True" ∧
    PyVal.pyStr (.pyFloat 1) = "1.0" ∧
    ("True" : String) ≠ "1" := by
  have hc : ¬¬(v.toQ = 0 ∨ v.toQ = 1) := not_not_intro h
  refine ⟨?_, ?_, by decide, by decide, by decide⟩
  · simp [burst_T0_config_set, hc, sendCmd]
  · simp [set_level_polarity, validate_enum, DG645_OUTPUT_KEYS,
      DG645_OUTPUT_MAP, hc, sendCmd, Bind.bind, Except.bind]

/-- C10 (witness): writing the boolean `True` to burst T0 config and to
output 0's polarity transmits the payload text `"True"`. -/
theorem c10_verbatim_zero_one_checks_witness :
    burst_T0_config_set dgInit (.pyBool true) =
      .ok { dgInit with sent :=
        dgInit.sent ++ [.cmd (.BURT (PyVal.pyBool true).pyStr)] } ∧
    set_level_polarity dgInit (.idx 0) (.pyBool true) =
      .ok { dgInit with sent :=
        dgInit.sent ++ [.cmd (.LPOL 0 (PyVal.pyBool true).pyStr)] } ∧
    PyVal.pyStr (.pyBool true) = "True" ∧
    PyVal.pyStr (.pyFloat 1) = "1.0" ∧
    ("True" : String) ≠ "1" :=
  c10_verbatim_zero_one_checks dgInit (.pyBool true) (by decide)
